import Mathlib

/-!
Verification of the ActionMan structured logger.

This file gives a shallow embedding of the stateful logging coordinator in
`src/actionman/logger.py` together with its stateless formatting helpers in
`src/actionman/pprint.py`, and proves properties of the section numbering,
foldable-group bookkeeping, entry formatting, sink dispatch, HTML-file
splicing, and critical-exit semantics.

Conventions of the embedding:
- Python strings become `String`; Python integers become `Int`; Python
  truthiness of a string is `≠ ""` and of an integer is `≠ 0`.
- The optional HTML output file is tracked as its content (`Option String`):
  `none` models an unconfigured `output_html_filepath`.
- `sys.exit` is modelled as a returned outcome rather than actual
  termination: `Logger.critical` reports `some arg` when the Python code
  would call `sys.exit(arg)`, and `none` when control returns to the caller.
- The call-stack inspection of `Logger._caller_name` is an effect of the
  runtime; the resolved name is passed in as an explicit argument.
-/

namespace ActionMan

/-- The six severity levels (`LogLevel` enum in `logger.py`). -/
inductive LogLevel
  | debug
  | info
  | notice
  | warning
  | error
  | critical
deriving Repr, DecidableEq

/-- Default status symbol of each level (the `*_symbol` constructor defaults of
`Logger.__init__`). -/
def levelSymbol : LogLevel → String
  | .debug => "🔘"
  | .info => "ℹ️"
  | .notice => "❗"
  | .warning => "🚨"
  | .error => "🚫"
  | .critical => "⛔"

/-- Modelled from the spec: the external `markitup.sgr.format` collaborator wraps
text in an ANSI SGR control sequence and a reset suffix (spec section 4.6:
"a styled ... string (... text style + foreground + background color)"). -/
def sgrFormat (controlSequence text : String) : String :=
  "\x1b[" ++ controlSequence ++ "m" ++ text ++ "\x1b[0m"

/-- Modelled from the spec: the control-sequence body produced by
`markitup.sgr.style` for the "bold" default title style of every level. -/
def sgrStyleBold : String := "1"

/-- Modelled from the spec: the control-sequence body produced by
`markitup.sgr.style` for bold text with an RGB foreground color. -/
def sgrStyleBoldRgb (r g b : Nat) : String :=
  "1;38;2;" ++ toString r ++ ";" ++ toString g ++ ";" ++ toString b

/-- Default foreground colors of `pprint.h1` … `pprint.h6`. -/
def headingStyle : Nat → String
  | 1 => sgrStyleBoldRgb 150 0 170
  | 2 => sgrStyleBoldRgb 25 100 175
  | 3 => sgrStyleBoldRgb 100 160 0
  | 4 => sgrStyleBoldRgb 200 150 0
  | 5 => sgrStyleBoldRgb 240 100 0
  | _ => sgrStyleBoldRgb 220 0 35

/-- Console heading as produced by `pprint.h1` … `pprint.h6` with the default
keyword arguments used by `Logger.section` (width 0, left alignment, one
blank line above, none below): `pprint.h` left-justifies the title to width 0
(a no-op), styles it, and prepends one newline of top margin. -/
def pprintHeading (level : Nat) (title : String) : String :=
  "\n" ++ sgrFormat (headingStyle level) title

/-- Modelled from the spec: the external `markitup.html.h` collaborator renders a
heading element of the given level. -/
def htmlH (level : Nat) (content : String) : String :=
  "<h" ++ toString level ++ ">" ++ content ++ "</h" ++ toString level ++ ">"

/-- Modelled from the spec: the external `markitup.html.ul` collaborator renders an
unordered list of items (spec section 4.2: the HTML fragment is "a list item"
holding the entry). -/
def htmlUl (items : List String) : String :=
  "<ul>" ++ String.join (items.map fun i => "<li>" ++ i ++ "</li>") ++ "</ul>"

/-- Return value of `pprint.github_group_start`: the foldable-group start marker. -/
def githubGroupStart (title : String) : String := "::group::" ++ title

/-- Return value of `pprint.github_group_end`: the foldable-group end marker. -/
def githubGroupEnd : String := "::endgroup::"

/-- Python `str.removesuffix`: drop `suffix` when the string ends with it. -/
def removeSuffix (s suffix : String) : String :=
  if suffix.data.isSuffixOf s.data then ⟨s.data.take (s.data.length - suffix.data.length)⟩
  else s

/-- Python `str.strip` (without arguments): remove leading and trailing
whitespace. -/
def pyStrip (s : String) : String :=
  ⟨((s.data.dropWhile Char.isWhitespace).reverse.dropWhile Char.isWhitespace).reverse⟩

/-- One metadata argument of `pprint.github_log`: its GitHub-side key, whether the
Python value is truthy, and its rendered value. -/
structure LogArg where
  name : String
  present : Bool
  value : String
deriving Repr, DecidableEq

/-- One iteration of the metadata loop of `pprint.github_log`: when the argument
is truthy, append `name=value,` to the accumulated output and record that an
argument was added. -/
def githubLogStep (acc : String × Bool) (arg : LogArg) : String × Bool :=
  if arg.present then (acc.1 ++ arg.name ++ "=" ++ arg.value ++ ",", true) else acc

/-- The metadata argument tuple iterated by `pprint.github_log`, in source order;
a Python string is truthy iff nonempty and an integer iff nonzero. -/
def githubLogArgs (title filename : String) (lineStart lineEnd columnStart columnEnd : Int) :
    List LogArg :=
  [ ⟨"title", decide (title ≠ ""), title⟩,
    ⟨"file", decide (filename ≠ ""), filename⟩,
    ⟨"line", decide (lineStart ≠ 0), toString lineStart⟩,
    ⟨"endLine", decide (lineEnd ≠ 0), toString lineEnd⟩,
    ⟨"col", decide (columnStart ≠ 0), toString columnStart⟩,
    ⟨"endColumn", decide (columnEnd ≠ 0), toString columnEnd⟩ ]

/-- Return value of `pprint.github_log` (the printing side effect is elided): the
GitHub Actions workflow-command directive for a debug, notice, warning, or
error message. -/
def githubLog (messageType message title filename : String)
    (lineStart lineEnd columnStart columnEnd : Int) : String :=
  let start := "::" ++ messageType ++ " "
  let result :=
    if messageType ≠ "debug" then
      let r := (githubLogArgs title filename lineStart lineEnd columnStart columnEnd).foldl
        githubLogStep (start, false)
      (r.1, r.2, message)
    else
      (start, false, " " ++ message)
  removeSuffix result.1 (if result.2.1 then "," else " ") ++ "::" ++ result.2.2

/-- Python `".".join(str(num) for num in nums)` as used for the section number. -/
def dotJoin : List Int → String
  | [] => ""
  | [n] => toString n
  | n :: rest => toString n ++ "." ++ dotJoin rest

/-- The in-place `self._next_section_num[-1] += 1` of `Logger.section_end`:
increment the last element of the list. -/
def incLast : List Int → List Int
  | [] => []
  | [n] => [n + 1]
  | n :: rest => n :: incLast rest

/-- The closing tags `Logger.__init__` stores in `self._html_file_end` and
re-appends after every HTML write. -/
def htmlFileEnd : String := "</body>\n</html>\n"

/-- The mutable state of a `Logger` instance: the fields assigned in
`Logger.__init__`, with the content of the optional HTML output file standing
in for the file system (`none` models an unconfigured path). -/
structure LoggerState where
  realtime_output : Bool
  github_console : Bool
  print_debug : Bool
  curr_section : String
  next_section_num : List Int
  open_grouped_sections : Int
  out_of_section : Bool
  default_exit_code : Option Int
  log_console : String
  log_html : String
  html_file : Option String
deriving Repr, DecidableEq, Inhabited

/-- `Logger._submit_console`: always append the newline-terminated entry to the
in-memory transcript; report whether it was echoed to the real console
(`print` is executed iff realtime output is on and the entry is not debug, or
debug printing is on, or GitHub console mode is on). -/
def LoggerState.submit_console (st : LoggerState) (text : String) (is_debug : Bool) :
    LoggerState × Bool :=
  ({ st with log_console := st.log_console ++ text ++ "\n" },
   st.realtime_output && (!is_debug || st.github_console || st.print_debug))

/-- `Logger._submit_html`: append the fragment (newline-terminated) to the
in-memory HTML document; when realtime output and a file are configured,
re-open the file, seek to just before the closing tags
(`file.seek(-len(end), 2)`), and write the fragment followed by the closing
tags. -/
def LoggerState.submit_html (st : LoggerState) (html : String) : LoggerState :=
  let file_entry := html ++ "\n"
  let st := { st with log_html := st.log_html ++ file_entry }
  match st.realtime_output, st.html_file with
  | true, some f =>
      let spliced :=
        String.mk (f.data.take (f.data.length - htmlFileEnd.data.length)) ++
          file_entry ++ htmlFileEnd
      { st with html_file := some spliced }
  | _, _ => st

/-- `Logger._submit`: write the console rendering, then the HTML rendering; the
Boolean reports whether the console entry was echoed. -/
def LoggerState.submit (st : LoggerState) (console file : String) (is_debug : Bool) :
    LoggerState × Bool :=
  let r := st.submit_console console is_debug
  (r.1.submit_html file, r.2)

/-- `Logger._format_entry` with the constructor's default symbols and the default
bold title style: the three synchronized renderings (console text, HTML
fragment, annotation-message body) of one entry. -/
def formatEntry (level : LogLevel) (message title code : String) :
    String × String × String :=
  let symbol := levelSymbol level
  let titles :=
    if title ≠ "" then
      (sgrFormat sgrStyleBold title ++ ": ", "<b>" ++ title ++ "</b>: ", title ++ ": ")
    else ("", "", "")
  let codes := if code ≠ "" then ("\n" ++ code, "<pre>" ++ code ++ "</pre>") else ("", "")
  (symbol ++ " " ++ titles.1 ++ message ++ codes.1,
   htmlUl [symbol ++ " " ++ titles.2.1 ++ message ++ codes.2],
   titles.2.2 ++ message)

/-- Result of `Logger.section`: the new state and whether the `::group::` start
marker was emitted (prepended to the console heading line). -/
structure SectionOut where
  state : LoggerState
  startMarker : Bool
deriving Repr, DecidableEq

/-- `Logger.section`: render the numbered heading for the console and the HTML
document, update the foldable-group counter, submit both renderings, and push
a fresh sibling counter onto the section-number list. `callerName` stands for
the stack-inspection result of `Logger._caller_name`. -/
def LoggerState.«section» (st : LoggerState) (title : String) (group : Bool)
    (callerName : String) : SectionOut :=
  let section_level := min st.next_section_num.length 6
  let section_num := dotJoin st.next_section_num
  let curr_section := section_num ++ "  " ++ title
  let caller_entry_html := "🔔 Caller: <code>" ++ callerName ++ "</code>"
  let heading_html := htmlH section_level curr_section
  let output_html := heading_html ++ "\n" ++ caller_entry_html
  let heading_console := pprintHeading section_level curr_section
  let output_console := heading_console ++ "  [" ++ callerName ++ "]"
  let startMarker := st.github_console ∧ group ∧ st.open_grouped_sections = 0
  let output_console :=
    if st.github_console ∧ group ∧ st.open_grouped_sections = 0 then
      githubGroupStart output_console
    else output_console
  let open_grouped :=
    if st.github_console ∧ (group ∨ st.open_grouped_sections ≠ 0) then
      st.open_grouped_sections + 1
    else st.open_grouped_sections
  let st := { st with curr_section := curr_section, open_grouped_sections := open_grouped }
  let st := (st.submit output_console output_html false).1
  ⟨{ st with next_section_num := st.next_section_num ++ [1] }, decide startMarker⟩

/-- Result of `Logger.section_end`: the new state and whether the `::endgroup::`
end marker was emitted. -/
structure SectionEndOut where
  state : LoggerState
  endMarker : Bool
deriving Repr, DecidableEq

/-- `Logger.section_end`: when a foldable group is open, decrement the counter and
emit the end marker if it reached zero; pop the last section counter unless
that would leave the root (a `TODO` in the source notes the unbalanced case);
then increment the last remaining counter and leave the section scope. -/
def LoggerState.section_end (st : LoggerState) : SectionEndOut :=
  let r :=
    if st.open_grouped_sections ≠ 0 then
      let st := { st with open_grouped_sections := st.open_grouped_sections - 1 }
      if st.open_grouped_sections = 0 then ((st.submit_console githubGroupEnd false).1, true)
      else (st, false)
    else (st, false)
  let st := r.1
  let nums :=
    if st.next_section_num.length > 2 then st.next_section_num.dropLast
    else st.next_section_num
  ⟨{ st with next_section_num := incLast nums, out_of_section := true }, r.2⟩

/-- `Logger.debug`: format the entry, wrap the whole console rendering in a
`::debug::` directive when GitHub console mode is on, and submit it as a
debug entry. -/
def LoggerState.debug (st : LoggerState) (message title code : String) : LoggerState :=
  let f := formatEntry .debug message title code
  let output_console :=
    if st.github_console then githubLog "debug" f.1 "" "" 0 0 0 0 else f.1
  (st.submit output_console f.2.1 true).1

/-- `Logger.info`: format the entry and submit both renderings. -/
def LoggerState.info (st : LoggerState) (message title code : String) : LoggerState :=
  let f := formatEntry .info message title code
  (st.submit f.1 f.2.1 false).1

/-- `Logger.notice`: submit the entry and, in GitHub console mode, emit a notice
directive titled with the current section; the directive, if any, is
returned alongside the state. -/
def LoggerState.notice (st : LoggerState) (message title code : String) :
    LoggerState × Option String :=
  let f := formatEntry .notice message title code
  let st := (st.submit f.1 f.2.1 false).1
  if st.github_console then (st, some (githubLog "notice" f.2.2 st.curr_section "" 0 0 0 0))
  else (st, none)

/-- `Logger.warning`: submit the entry and, in GitHub console mode, emit a warning
directive titled with the current section. -/
def LoggerState.warning (st : LoggerState) (message title code : String) :
    LoggerState × Option String :=
  let f := formatEntry .warning message title code
  let st := (st.submit f.1 f.2.1 false).1
  if st.github_console then (st, some (githubLog "warning" f.2.2 st.curr_section "" 0 0 0 0))
  else (st, none)

/-- `Logger.error`: submit the entry and, in GitHub console mode, emit an error
directive titled with the current section. -/
def LoggerState.error (st : LoggerState) (message title code : String) :
    LoggerState × Option String :=
  let f := formatEntry .error message title code
  let st := (st.submit f.1 f.2.1 false).1
  if st.github_console then (st, some (githubLog "error" f.2.2 st.curr_section "" 0 0 0 0))
  else (st, none)

/-- Result of `Logger.critical`: the final state, the fatal-error directive
emitted in GitHub console mode, and the process outcome — `none` when control
returns to the caller, `some arg` when the code calls `sys.exit(arg)`
(`arg = none` models `sys.exit(None)`, which terminates with status 0). -/
structure CriticalOut where
  state : LoggerState
  directive : Option String
  exited : Option (Option Int)
deriving Repr, DecidableEq

/-- `Logger.critical`: append the active traceback (if an exception is being
handled) to the code block, submit the entry, resolve the exit policy (the
`sys_exit` argument when given, else whether a default exit code is
configured), force-close an open foldable group when about to exit, emit a
fatal-error directive in GitHub console mode, and exit with
`exit_code or self._default_exit_code` when the policy says to exit. -/
def LoggerState.critical (st : LoggerState) (message title code : String)
    (sys_exit : Option Bool) (exit_code : Option Int) (callerName : String)
    (activeTraceback : Option String) : CriticalOut :=
  let code :=
    match activeTraceback with
    | some tb => pyStrip (code ++ "\n\n" ++ tb)
    | none => code
  let f := formatEntry .critical message title code
  let st := (st.submit f.1 f.2.1 false).1
  let sysExitResolved :=
    match sys_exit with
    | none => st.default_exit_code.isSome
    | some b => b
  let st :=
    if sysExitResolved && decide (st.open_grouped_sections ≠ 0) then
      (st.submit_console githubGroupEnd false).1
    else st
  let directive :=
    if st.github_console then
      some (githubLog "error" f.2.2
        ("FATAL ERROR: " ++ st.curr_section ++ " (caller: " ++ callerName ++ ")") "" 0 0 0 0)
    else none
  let exited :=
    if sysExitResolved then
      some (match exit_code with
        | some c => if c ≠ 0 then some c else st.default_exit_code
        | none => st.default_exit_code)
    else none
  ⟨st, directive, exited⟩

/-- The HTML intro written by `Logger.__init__` before `</head><body>` (the
dedented, left-stripped f-string, plus the optional style block). -/
def htmlIntro (htmlTitle htmlStyle : String) : String :=
  "<!DOCTYPE html>\n<html>\n<head>\n<title>" ++ htmlTitle ++ "</title>\n" ++
  "<meta charset=\"UTF-8\">\n" ++
  "<meta name=\"viewport\" content=\"width=device-width, initial-scale=1.0\">\n" ++
  (if htmlStyle ≠ "" then "<style>\n" ++ htmlStyle ++ "\n</style>\n" else "")

/-- `Logger.__init__`: validate the critical exit code (a positive integer or
`None`), initialize all state, create the HTML file (touched empty, and fully
written when realtime output is on), and open the root section.
`htmlPathConfigured` abstracts whether `output_html_filepath` is set; the
file's content is tracked in place of the file system. -/
def Logger.init (realtime_output github_console : Bool) (initial_section_number : Int)
    (exit_code_critical : Option Int) (console_print_debug htmlPathConfigured : Bool)
    (root_heading html_title html_style callerName : String) : Except String LoggerState :=
  let valid :=
    match exit_code_critical with
    | some c => decide (0 < c)
    | none => true
  if valid then
    let log_html := htmlIntro html_title html_style ++ "</head>\n<body>\n"
    let html_file : Option String :=
      if htmlPathConfigured then
        some (if realtime_output then log_html ++ htmlFileEnd else "")
      else none
    let st : LoggerState :=
      { realtime_output := realtime_output
        github_console := github_console
        print_debug := console_print_debug
        curr_section := ""
        next_section_num := [initial_section_number]
        open_grouped_sections := 0
        out_of_section := false
        default_exit_code := exit_code_critical
        log_console := ""
        log_html := log_html
        html_file := html_file }
    .ok (st.«section» root_heading false callerName).state
  else
    .error "exit_code_critical must be a positive integer or None"

/-- A logger constructed with all constructor defaults of `logger.create`. -/
def freshLogger : LoggerState :=
  (Logger.init true true 1 (some 1) true true "Log" "Log" "" "script.main").toOption.getD default

/-- The state assembled by `Logger.__init__` (with a valid exit code) just before
it opens the root section. -/
def initBaseState (ro gc cpd : Bool) (isn : Int) (ecc : Option Int) (hpc : Bool)
    (ht hs : String) : LoggerState :=
  { realtime_output := ro
    github_console := gc
    print_debug := cpd
    curr_section := ""
    next_section_num := [isn]
    open_grouped_sections := 0
    out_of_section := false
    default_exit_code := ecc
    log_console := ""
    log_html := htmlIntro ht hs ++ "</head>\n<body>\n"
    html_file :=
      if hpc then
        some (if ro then htmlIntro ht hs ++ "</head>\n<body>\n" ++ htmlFileEnd else "")
      else none }

/-- The `Logger.html_log` property: the in-memory document followed by the
closing tags. -/
def LoggerState.html_log (st : LoggerState) : String := st.log_html ++ htmlFileEnd

/-- Logger states reachable from a successful construction through the public
operations, over arbitrary arguments. -/
inductive Reachable : LoggerState → Prop
  | init (ro gc : Bool) (isn : Int) (ecc : Option Int) (cpd hpc : Bool)
      (rh ht hs cn : String) (st : LoggerState) :
      Logger.init ro gc isn ecc cpd hpc rh ht hs cn = .ok st → Reachable st
  | sec (st : LoggerState) (title : String) (group : Bool) (cn : String) :
      Reachable st → Reachable (st.«section» title group cn).state
  | secEnd (st : LoggerState) : Reachable st → Reachable st.section_end.state
  | dbg (st : LoggerState) (m t c : String) : Reachable st → Reachable (st.debug m t c)
  | inf (st : LoggerState) (m t c : String) : Reachable st → Reachable (st.info m t c)
  | ntc (st : LoggerState) (m t c : String) : Reachable st → Reachable (st.notice m t c).1
  | wrn (st : LoggerState) (m t c : String) : Reachable st → Reachable (st.warning m t c).1
  | err (st : LoggerState) (m t c : String) : Reachable st → Reachable (st.error m t c).1
  | crit (st : LoggerState) (m t c : String) (se : Option Bool) (ec : Option Int)
      (cn : String) (tb : Option String) :
      Reachable st → Reachable (st.critical m t c se ec cn tb).state

/-- Comma-separated joining with no trailing comma, as the spec's directive
grammar `{key=value,...}` requires. -/
def commaJoin : List String → String
  | [] => ""
  | [s] => s
  | s :: rest => s ++ "," ++ commaJoin rest

/-- The `key=value` strings of the truthy metadata arguments, in source order. -/
def presentPairs : List LogArg → List String
  | [] => []
  | a :: rest =>
      if a.present then (a.name ++ "=" ++ a.value) :: presentPairs rest else presentPairs rest

/-- The raw metadata text accumulated by the loop of `pprint.github_log`: one
`key=value,` block (trailing comma included) per truthy argument. -/
def renderTrail : List LogArg → String
  | [] => ""
  | a :: rest =>
      (if a.present then a.name ++ "=" ++ a.value ++ "," else "") ++ renderTrail rest

/-- The CI annotation-directive format exactly as the spec states it:
`::{kind} {key=value,...}::{message}`; the debug kind carries no metadata and
prefixes the message with a space after the `::` separator; for other kinds
the provided pairs are comma-separated with no trailing comma before the
final `::`. -/
def githubLogSpecFormat (kind msg : String) (pairs : List String) : String :=
  if kind = "debug" then "::debug::" ++ (" " ++ msg)
  else if pairs = [] then "::" ++ kind ++ "::" ++ msg
  else "::" ++ kind ++ " " ++ commaJoin pairs ++ "::" ++ msg

/-- Exit-code resolution of `Logger.critical` (`exit_code or self._default_exit_code`):
the explicit override when given and nonzero, else the configured default. -/
def resolvedExitCode (exit_code default_code : Option Int) : Option Int :=
  match exit_code with
  | some c => if c ≠ 0 then some c else default_code
  | none => default_code

/-- Invariant of the realtime HTML sink: whenever realtime output is on and a
file is configured, the file holds exactly the in-memory document followed by
the closing tags. -/
def HtmlFileInv (st : LoggerState) : Prop :=
  st.realtime_output = true → ∀ f, st.html_file = some f → f = st.log_html ++ htmlFileEnd

/-- Driver for `n` successive `section` calls with `group=True`: the final state
and the list of start-marker flags, in call order. -/
def doSections (title caller : Nat → String) : LoggerState → Nat → LoggerState × List Bool
  | st, 0 => (st, [])
  | st, n + 1 =>
      let r := st.«section» (title n) true (caller n)
      let rest := doSections title caller r.state n
      (rest.1, r.startMarker :: rest.2)

/-- Driver for `n` successive `section_end` calls: the final state and the list
of end-marker flags, in call order. -/
def doSectionEnds : LoggerState → Nat → LoggerState × List Bool
  | st, 0 => (st, [])
  | st, n + 1 =>
      let r := st.section_end
      let rest := doSectionEnds r.state n
      (rest.1, r.endMarker :: rest.2)

/-! Helper lemmas about strings, the sinks, and the section counters. -/

theorem removeSuffix_append (s t : String) : removeSuffix (s ++ t) t = s := by
  unfold removeSuffix
  rw [if_pos]
  · apply String.ext
    simp [String.data_append, List.take_left]
  · rw [List.isSuffixOf_iff_suffix, String.data_append]
    exact List.suffix_append _ _

@[simp] theorem submit_console_fst (st : LoggerState) (text : String) (d : Bool) :
    (st.submit_console text d).1 = { st with log_console := st.log_console ++ text ++ "\n" } :=
  rfl

@[simp] theorem submit_console_snd (st : LoggerState) (text : String) (d : Bool) :
    (st.submit_console text d).2 =
      (st.realtime_output && (!d || st.github_console || st.print_debug)) :=
  rfl

@[simp] theorem submit_fst (st : LoggerState) (c f : String) (d : Bool) :
    (st.submit c f d).1 =
      ({ st with log_console := st.log_console ++ c ++ "\n" } : LoggerState).submit_html f :=
  rfl

@[simp] theorem submit_html_realtime (st : LoggerState) (x : String) :
    (st.submit_html x).realtime_output = st.realtime_output := by
  obtain ⟨ro, gc, pd, cs, ns, og, oos, dec, lc, lh, hf⟩ := st
  cases ro <;> cases hf <;> rfl

@[simp] theorem submit_html_github (st : LoggerState) (x : String) :
    (st.submit_html x).github_console = st.github_console := by
  obtain ⟨ro, gc, pd, cs, ns, og, oos, dec, lc, lh, hf⟩ := st
  cases ro <;> cases hf <;> rfl

@[simp] theorem submit_html_print_debug (st : LoggerState) (x : String) :
    (st.submit_html x).print_debug = st.print_debug := by
  obtain ⟨ro, gc, pd, cs, ns, og, oos, dec, lc, lh, hf⟩ := st
  cases ro <;> cases hf <;> rfl

@[simp] theorem submit_html_curr_section (st : LoggerState) (x : String) :
    (st.submit_html x).curr_section = st.curr_section := by
  obtain ⟨ro, gc, pd, cs, ns, og, oos, dec, lc, lh, hf⟩ := st
  cases ro <;> cases hf <;> rfl

@[simp] theorem submit_html_next_section_num (st : LoggerState) (x : String) :
    (st.submit_html x).next_section_num = st.next_section_num := by
  obtain ⟨ro, gc, pd, cs, ns, og, oos, dec, lc, lh, hf⟩ := st
  cases ro <;> cases hf <;> rfl

@[simp] theorem submit_html_open_grouped (st : LoggerState) (x : String) :
    (st.submit_html x).open_grouped_sections = st.open_grouped_sections := by
  obtain ⟨ro, gc, pd, cs, ns, og, oos, dec, lc, lh, hf⟩ := st
  cases ro <;> cases hf <;> rfl

@[simp] theorem submit_html_out_of_section (st : LoggerState) (x : String) :
    (st.submit_html x).out_of_section = st.out_of_section := by
  obtain ⟨ro, gc, pd, cs, ns, og, oos, dec, lc, lh, hf⟩ := st
  cases ro <;> cases hf <;> rfl

@[simp] theorem submit_html_default_exit_code (st : LoggerState) (x : String) :
    (st.submit_html x).default_exit_code = st.default_exit_code := by
  obtain ⟨ro, gc, pd, cs, ns, og, oos, dec, lc, lh, hf⟩ := st
  cases ro <;> cases hf <;> rfl

@[simp] theorem submit_html_log_console (st : LoggerState) (x : String) :
    (st.submit_html x).log_console = st.log_console := by
  obtain ⟨ro, gc, pd, cs, ns, og, oos, dec, lc, lh, hf⟩ := st
  cases ro <;> cases hf <;> rfl

@[simp] theorem submit_html_log_html (st : LoggerState) (x : String) :
    (st.submit_html x).log_html = st.log_html ++ (x ++ "\n") := by
  obtain ⟨ro, gc, pd, cs, ns, og, oos, dec, lc, lh, hf⟩ := st
  cases ro <;> cases hf <;> rfl

theorem submit_html_of_realtime_some (st : LoggerState) (f x : String)
    (hrt : st.realtime_output = true) (hf : st.html_file = some f) :
    st.submit_html x =
      { st with
          log_html := st.log_html ++ (x ++ "\n")
          html_file := some (String.mk (f.data.take (f.data.length - htmlFileEnd.data.length)) ++
            (x ++ "\n") ++ htmlFileEnd) } := by
  obtain ⟨ro, gc, pd, cs, ns, og, oos, dec, lc, lh, hf0⟩ := st
  simp only at hrt hf
  subst hrt
  subst hf
  rfl

theorem submit_html_of_no_sink (st : LoggerState) (x : String)
    (h : st.realtime_output = false ∨ st.html_file = none) :
    st.submit_html x = { st with log_html := st.log_html ++ (x ++ "\n") } := by
  obtain ⟨ro, gc, pd, cs, ns, og, oos, dec, lc, lh, hf0⟩ := st
  simp only at h
  rcases h with h | h
  · subst h
    cases hf0 <;> rfl
  · subst h
    cases ro <;> rfl

theorem incLast_length (l : List Int) : (incLast l).length = l.length := by
  induction l with
  | nil => rfl
  | cons a rest ih =>
      cases rest with
      | nil => rfl
      | cons b r => simpa [incLast] using ih

@[simp] theorem section_state_github (st : LoggerState) (t : String) (g : Bool) (cn : String) :
    (st.«section» t g cn).state.github_console = st.github_console := by
  simp [LoggerState.«section»]

@[simp] theorem section_state_realtime (st : LoggerState) (t : String) (g : Bool) (cn : String) :
    (st.«section» t g cn).state.realtime_output = st.realtime_output := by
  simp [LoggerState.«section»]

@[simp] theorem section_state_next (st : LoggerState) (t : String) (g : Bool) (cn : String) :
    (st.«section» t g cn).state.next_section_num = st.next_section_num ++ [1] := by
  simp [LoggerState.«section»]

@[simp] theorem section_state_curr (st : LoggerState) (t : String) (g : Bool) (cn : String) :
    (st.«section» t g cn).state.curr_section = dotJoin st.next_section_num ++ "  " ++ t := by
  simp [LoggerState.«section»]

theorem section_state_open (st : LoggerState) (t : String) (g : Bool) (cn : String) :
    (st.«section» t g cn).state.open_grouped_sections =
      if st.github_console = true ∧ (g = true ∨ st.open_grouped_sections ≠ 0) then
        st.open_grouped_sections + 1
      else st.open_grouped_sections := by
  simp [LoggerState.«section»]

theorem section_startMarker (st : LoggerState) (t : String) (g : Bool) (cn : String) :
    (st.«section» t g cn).startMarker =
      decide (st.github_console = true ∧ g = true ∧ st.open_grouped_sections = 0) := by
  simp [LoggerState.«section»]

@[simp] theorem sectionEnd_state_github (st : LoggerState) :
    st.section_end.state.github_console = st.github_console := by
  simp only [LoggerState.section_end]
  split_ifs <;> simp

@[simp] theorem sectionEnd_state_realtime (st : LoggerState) :
    st.section_end.state.realtime_output = st.realtime_output := by
  simp only [LoggerState.section_end]
  split_ifs <;> simp

theorem sectionEnd_state_next (st : LoggerState) :
    st.section_end.state.next_section_num =
      incLast (if st.next_section_num.length > 2 then st.next_section_num.dropLast
        else st.next_section_num) := by
  simp only [LoggerState.section_end]
  split_ifs <;> simp_all

theorem sectionEnd_state_open (st : LoggerState) :
    st.section_end.state.open_grouped_sections =
      if st.open_grouped_sections ≠ 0 then st.open_grouped_sections - 1
      else st.open_grouped_sections := by
  simp only [LoggerState.section_end]
  split_ifs <;> simp_all

theorem sectionEnd_endMarker (st : LoggerState) :
    st.section_end.endMarker = decide (st.open_grouped_sections = 1) := by
  simp only [LoggerState.section_end]
  split_ifs with h1 h2 <;> simp_all <;> omega

@[simp] theorem debug_open (st : LoggerState) (m t c : String) :
    (st.debug m t c).open_grouped_sections = st.open_grouped_sections := by
  simp [LoggerState.debug]

@[simp] theorem info_open (st : LoggerState) (m t c : String) :
    (st.info m t c).open_grouped_sections = st.open_grouped_sections := by
  simp [LoggerState.info]

@[simp] theorem notice_fst_open (st : LoggerState) (m t c : String) :
    (st.notice m t c).1.open_grouped_sections = st.open_grouped_sections := by
  simp only [LoggerState.notice]
  split_ifs <;> simp

@[simp] theorem warning_fst_open (st : LoggerState) (m t c : String) :
    (st.warning m t c).1.open_grouped_sections = st.open_grouped_sections := by
  simp only [LoggerState.warning]
  split_ifs <;> simp

@[simp] theorem error_fst_open (st : LoggerState) (m t c : String) :
    (st.error m t c).1.open_grouped_sections = st.open_grouped_sections := by
  simp only [LoggerState.error]
  split_ifs <;> simp

@[simp] theorem critical_state_open (st : LoggerState) (m t c : String) (se : Option Bool)
    (ec : Option Int) (cn : String) (tb : Option String) :
    (st.critical m t c se ec cn tb).state.open_grouped_sections = st.open_grouped_sections := by
  cases tb <;> simp only [LoggerState.critical] <;> split_ifs <;> simp

@[simp] theorem critical_state_github (st : LoggerState) (m t c : String) (se : Option Bool)
    (ec : Option Int) (cn : String) (tb : Option String) :
    (st.critical m t c se ec cn tb).state.github_console = st.github_console := by
  cases tb <;> simp only [LoggerState.critical] <;> split_ifs <;> simp

@[simp] theorem critical_state_default (st : LoggerState) (m t c : String) (se : Option Bool)
    (ec : Option Int) (cn : String) (tb : Option String) :
    (st.critical m t c se ec cn tb).state.default_exit_code = st.default_exit_code := by
  cases tb <;> simp only [LoggerState.critical] <;> split_ifs <;> simp

theorem htmlInv_submit_html (st : LoggerState) (x : String) (h : HtmlFileInv st) :
    HtmlFileInv (st.submit_html x) := by
  intro hrt f hf
  rw [submit_html_realtime] at hrt
  by_cases hr : st.realtime_output = true
  · cases hfs : st.html_file with
    | none =>
        rw [submit_html_of_no_sink st x (Or.inr hfs)] at hf
        simp [hfs] at hf
    | some f0 =>
        have h0 := h hr f0 hfs
        rw [submit_html_of_realtime_some st f0 x hr hfs] at hf
        simp at hf
        subst h0
        rw [submit_html_log_html]
        rw [← hf]
        apply String.ext
        simp [String.data_append, List.take_left]
  · exact absurd hrt hr

theorem htmlInv_section (st : LoggerState) (t : String) (g : Bool) (cn : String)
    (h : HtmlFileInv st) : HtmlFileInv (st.«section» t g cn).state := by
  exact htmlInv_submit_html _ _ h

theorem htmlInv_section_end (st : LoggerState) (h : HtmlFileInv st) :
    HtmlFileInv st.section_end.state := by
  simp only [LoggerState.section_end]
  split_ifs <;> exact h

theorem htmlInv_debug (st : LoggerState) (m t c : String) (h : HtmlFileInv st) :
    HtmlFileInv (st.debug m t c) := by
  exact htmlInv_submit_html _ _ h

theorem htmlInv_info (st : LoggerState) (m t c : String) (h : HtmlFileInv st) :
    HtmlFileInv (st.info m t c) := by
  exact htmlInv_submit_html _ _ h

theorem htmlInv_notice (st : LoggerState) (m t c : String) (h : HtmlFileInv st) :
    HtmlFileInv (st.notice m t c).1 := by
  simp only [LoggerState.notice]
  split_ifs <;> exact htmlInv_submit_html _ _ h

theorem htmlInv_warning (st : LoggerState) (m t c : String) (h : HtmlFileInv st) :
    HtmlFileInv (st.warning m t c).1 := by
  simp only [LoggerState.warning]
  split_ifs <;> exact htmlInv_submit_html _ _ h

theorem htmlInv_error (st : LoggerState) (m t c : String) (h : HtmlFileInv st) :
    HtmlFileInv (st.error m t c).1 := by
  simp only [LoggerState.error]
  split_ifs <;> exact htmlInv_submit_html _ _ h

theorem htmlInv_critical (st : LoggerState) (m t c : String) (se : Option Bool)
    (ec : Option Int) (cn : String) (tb : Option String) (h : HtmlFileInv st) :
    HtmlFileInv (st.critical m t c se ec cn tb).state := by
  cases tb <;> simp only [LoggerState.critical] <;> split_ifs <;>
    exact htmlInv_submit_html _ _ h

theorem htmlInv_init_state (ro gc : Bool) (isn : Int) (ecc : Option Int) (cpd hpc : Bool)
    (ht hs : String) :
    HtmlFileInv (LoggerState.mk ro gc cpd "" [isn] 0 false ecc ""
      (htmlIntro ht hs ++ "</head>\n<body>\n")
      (if hpc = true then
        some (if ro = true then htmlIntro ht hs ++ "</head>\n<body>\n" ++ htmlFileEnd else "")
      else none)) := by
  intro hrt f hf
  simp only at hrt hf ⊢
  subst hrt
  split at hf
  · simp at hf
    exact hf.symm
  · cases hf

theorem init_ok_valid (ro gc : Bool) (isn : Int) (ecc : Option Int) (cpd hpc : Bool)
    (rh ht hs cn : String) (st : LoggerState)
    (hok : Logger.init ro gc isn ecc cpd hpc rh ht hs cn = .ok st) :
    ecc = none ∨ ∃ c, ecc = some c ∧ 0 < c := by
  rcases ecc with _ | c
  · exact Or.inl rfl
  · by_cases hc : 0 < c
    · exact Or.inr ⟨c, rfl, hc⟩
    · simp only [Logger.init] at hok
      rw [if_neg (by simp [hc])] at hok
      cases hok

theorem init_ok_eq (ro gc : Bool) (isn : Int) (ecc : Option Int) (cpd hpc : Bool)
    (rh ht hs cn : String)
    (hv : ecc = none ∨ ∃ c, ecc = some c ∧ 0 < c) :
    Logger.init ro gc isn ecc cpd hpc rh ht hs cn =
      .ok ((initBaseState ro gc cpd isn ecc hpc ht hs).«section» rh false cn).state := by
  rcases hv with h | ⟨c, h, hc⟩ <;> subst h
  · rfl
  · simp only [Logger.init]
    rw [if_pos (decide_eq_true hc)]
    rfl

theorem htmlInv_initBaseState (ro gc cpd : Bool) (isn : Int) (ecc : Option Int) (hpc : Bool)
    (ht hs : String) : HtmlFileInv (initBaseState ro gc cpd isn ecc hpc ht hs) := by
  intro hrt f hf
  simp only [initBaseState] at hrt hf ⊢
  subst hrt
  split at hf
  · simp at hf
    exact hf.symm
  · cases hf

theorem htmlInv_init (ro gc : Bool) (isn : Int) (ecc : Option Int) (cpd hpc : Bool)
    (rh ht hs cn : String) (st : LoggerState)
    (hok : Logger.init ro gc isn ecc cpd hpc rh ht hs cn = .ok st) : HtmlFileInv st := by
  rw [init_ok_eq ro gc isn ecc cpd hpc rh ht hs cn
    (init_ok_valid ro gc isn ecc cpd hpc rh ht hs cn st hok)] at hok
  injection hok with h
  rw [← h]
  exact htmlInv_section _ _ _ _ (htmlInv_initBaseState ro gc cpd isn ecc hpc ht hs)

theorem githubLog_debug_eq (msg title filename : String) (a b c d : Int) :
    githubLog "debug" msg title filename a b c d = "::debug:: " ++ msg := by
  simp only [githubLog]
  rw [if_neg (by simp)]
  dsimp only
  rw [show (if (false = true) then ("," : String) else " ") = " " from rfl]
  rw [show (("::" : String) ++ "debug" ++ " ") = "::debug" ++ " " from rfl, removeSuffix_append]
  apply String.ext
  simp [String.data_append]

theorem foldl_githubLogStep (args : List LogArg) (o : String) (b : Bool) :
    args.foldl githubLogStep (o, b) = (o ++ renderTrail args, b || args.any (·.present)) := by
  induction args generalizing o b with
  | nil => simp [renderTrail]
  | cons a rest ih =>
      by_cases hp : a.present = true
      · simp [githubLogStep, hp, ih, renderTrail]
        apply String.ext
        simp [String.data_append]
      · simp [githubLogStep, hp, ih, renderTrail]

theorem presentPairs_nil_iff (args : List LogArg) :
    presentPairs args = [] ↔ args.any (·.present) = false := by
  induction args with
  | nil => simp [presentPairs]
  | cons a rest ih =>
      by_cases hp : a.present = true <;> simp [presentPairs, hp, ih]

theorem renderTrail_of_none_present (args : List LogArg)
    (h : args.any (·.present) = false) : renderTrail args = "" := by
  induction args with
  | nil => rfl
  | cons a rest ih =>
      simp only [List.any_cons, Bool.or_eq_false_iff] at h
      simp [renderTrail, h.1, ih h.2]

theorem renderTrail_eq_commaJoin (args : List LogArg) (hne : presentPairs args ≠ []) :
    renderTrail args = commaJoin (presentPairs args) ++ "," := by
  induction args with
  | nil => exact absurd rfl hne
  | cons a rest ih =>
      by_cases hp : a.present = true
      · rcases hps : presentPairs rest with _ | ⟨p, ps⟩
        · have hrt : renderTrail rest = "" :=
            renderTrail_of_none_present rest ((presentPairs_nil_iff rest).1 hps)
          simp [renderTrail, presentPairs, hp, hps, hrt, commaJoin]
        · have ihr := ih (by simp [hps])
          rw [hps] at ihr
          simp only [renderTrail, presentPairs, hp, if_true, hps, ihr, commaJoin]
          apply String.ext
          simp [String.data_append]
      · have hp' : a.present = false := by simpa using hp
        have hne' : presentPairs rest ≠ [] := by
          simpa [presentPairs, hp'] using hne
        simpa [renderTrail, presentPairs, hp'] using ih hne'

theorem htmlUl_singleton (x : String) : htmlUl [x] = "<ul><li>" ++ x ++ "</li></ul>" := by
  unfold htmlUl
  rw [show String.join (([x].map fun i => "<li>" ++ i ++ "</li>")) =
    "" ++ ("<li>" ++ x ++ "</li>") from rfl]
  rw [String.empty_append]
  apply String.ext
  simp [String.data_append]

/-! Claim theorems. -/

/-- C7: for every kind and every combination of optional metadata, the produced
CI annotation directive is `::{kind} {key=value,...}::{message}`: the debug
kind carries no `key=value` metadata and prefixes the message with a single
space after the `::` separator; for the other kinds each of title, file,
line, endLine, col, endColumn is emitted only if the corresponding argument
was provided (truthy), comma-separated, with no trailing comma before the
final `::`. -/
theorem github_log_directive_format (mt msg title filename : String) (ls le cs ce : Int) :
    githubLog mt msg title filename ls le cs ce =
      githubLogSpecFormat mt msg (presentPairs (githubLogArgs title filename ls le cs ce)) := by
  by_cases hmt : mt = "debug"
  · subst hmt
    rw [githubLog_debug_eq]
    simp only [githubLogSpecFormat, if_pos rfl]
    apply String.ext
    simp [String.data_append]
  · simp only [githubLog]
    rw [if_pos (by simpa using hmt)]
    dsimp only
    rw [foldl_githubLogStep]
    dsimp only
    simp only [Bool.false_or]
    by_cases hne : presentPairs (githubLogArgs title filename ls le cs ce) = []
    · rw [(presentPairs_nil_iff _).1 hne]
      rw [show (if (false = true) then ("," : String) else " ") = " " from rfl]
      rw [renderTrail_of_none_present _ ((presentPairs_nil_iff _).1 hne)]
      rw [String.append_empty, removeSuffix_append]
      simp [githubLogSpecFormat, hmt, hne]
    · have hany : (githubLogArgs title filename ls le cs ce).any (·.present) = true := by
        rcases h : (githubLogArgs title filename ls le cs ce).any (·.present) with _ | _
        · exact absurd ((presentPairs_nil_iff _).2 h) hne
        · rfl
      rw [hany]
      rw [show (if (true = true) then ("," : String) else " ") = "," from rfl]
      rw [renderTrail_eq_commaJoin _ hne, ← String.append_assoc, removeSuffix_append]
      simp [githubLogSpecFormat, hmt, hne]

/-- C8: `Logger._submit_console` always appends the newline-terminated entry to
the in-memory console transcript, and physically echoes it to the real
console exactly when realtime output is enabled and (the entry is not debug,
or debug echo is enabled, or GitHub annotation emission is enabled);
consequently a debug-level entry is always present in the transcript
accessor afterwards. -/
theorem submit_console_semantics (st : LoggerState) (text : String) (is_debug : Bool)
    (m t c : String) :
    (st.submit_console text is_debug).1.log_console = st.log_console ++ text ++ "\n" ∧
    (st.submit_console text is_debug).2 =
      (st.realtime_output && (!is_debug || st.github_console || st.print_debug)) ∧
    (formatEntry .debug m t c).1.data <:+: (st.debug m t c).log_console.data := by
  refine ⟨rfl, rfl, ?_⟩
  simp only [LoggerState.debug, submit_fst, submit_html_log_console]
  by_cases hg : st.github_console = true
  · rw [if_pos hg, githubLog_debug_eq]
    exact ⟨st.log_console.data ++ "::debug:: ".data, "\n".data, by simp [String.data_append]⟩
  · rw [if_neg hg]
    exact ⟨st.log_console.data, "\n".data, by simp [String.data_append]⟩

/-- C5 counterexample: formatting an entry with non-empty title `t`, message `x`
and non-empty code `c` yields the annotation-message body `t: x`, which does
not contain the code block — so the code block is not included in all three
renderings, contrary to the claim. -/
theorem format_entry_code_not_in_annot_cex :
    (formatEntry .info "x" "t" "c").2.2 = "t: x" ∧
    ¬ ("c".data <:+: (formatEntry .info "x" "t" "c").2.2.data) := by
  constructor
  · rfl
  · decide

/-- C5 (amended): for every level and message, formatting with an empty title
omits the title and its separator in all three renderings; formatting with a
non-empty title and non-empty code includes a title block in all three
renderings and a code block in the console and HTML renderings, while the
annotation-message body carries the title and message only (no code). -/
theorem format_entry_title_code_blocks (level : LogLevel) (message title code : String) :
    (title = "" →
      (formatEntry level message title code).1 =
        levelSymbol level ++ " " ++ message ++ (if code ≠ "" then "\n" ++ code else "") ∧
      (formatEntry level message title code).2.1 =
        htmlUl [levelSymbol level ++ " " ++ message ++
          (if code ≠ "" then "<pre>" ++ code ++ "</pre>" else "")] ∧
      (formatEntry level message title code).2.2 = message) ∧
    (title ≠ "" → code ≠ "" →
      (sgrFormat sgrStyleBold title ++ ": ").data <:+:
        (formatEntry level message title code).1.data ∧
      ("\n" ++ code).data <:+: (formatEntry level message title code).1.data ∧
      ("<b>" ++ title ++ "</b>: ").data <:+:
        (formatEntry level message title code).2.1.data ∧
      ("<pre>" ++ code ++ "</pre>").data <:+:
        (formatEntry level message title code).2.1.data ∧
      (formatEntry level message title code).2.2 = title ++ ": " ++ message) := by
  constructor
  · intro h
    subst h
    simp only [formatEntry]
    rw [if_neg (by simp)]
    dsimp only
    refine ⟨?_, ?_, ?_⟩
    · by_cases hc : code = ""
      · subst hc
        rw [if_neg (by simp)]
        apply String.ext
        simp [String.data_append]
      · rw [if_pos hc]
        dsimp only
        apply String.ext
        simp [String.data_append, hc]
    · by_cases hc : code = ""
      · subst hc
        rw [if_neg (by simp)]
        exact congrArg (fun z => htmlUl [z]) (by apply String.ext; simp [String.data_append])
      · rw [if_pos hc]
        dsimp only
        exact congrArg (fun z => htmlUl [z])
          (by apply String.ext; simp [String.data_append, hc])
    · apply String.ext
      simp [String.data_append]
  · intro ht hc
    simp only [formatEntry]
    rw [if_pos ht, if_pos hc]
    dsimp only
    rw [htmlUl_singleton]
    refine ⟨?_, ?_, ?_, ?_, ?_⟩
    · exact ⟨(levelSymbol level ++ " ").data, (message ++ ("\n" ++ code)).data,
        by simp [String.data_append]⟩
    · exact ⟨(levelSymbol level ++ " " ++ (sgrFormat sgrStyleBold title ++ ": ") ++ message).data,
        [], by simp [String.data_append]⟩
    · exact ⟨("<ul><li>" ++ (levelSymbol level ++ " ")).data,
        (message ++ ("<pre>" ++ code ++ "</pre>") ++ "</li></ul>").data,
        by simp [String.data_append]⟩
    · exact ⟨("<ul><li>" ++ (levelSymbol level ++ " " ++ ("<b>" ++ title ++ "</b>: ") ++ message)).data,
        "</li></ul>".data, by simp [String.data_append]⟩
    · apply String.ext
      simp [String.data_append]

/-- Witness for C5's amended theorem at level `info`, title `t`, message `x`,
code `c`. -/
theorem format_entry_title_code_blocks_witness :
    ("t" : String) ≠ "" ∧ ("c" : String) ≠ "" ∧
    (formatEntry .info "x" "t" "c").2.2 = "t" ++ ": " ++ "x" :=
  ⟨by decide, by decide,
    ((format_entry_title_code_blocks .info "x" "t" "c").2 (by decide) (by decide)).2.2.2.2⟩

/-- C6 counterexample: on a freshly constructed logger — whose only open section
is the constructor's root heading, so no user-opened section is open —
`section_end` changes the section-numbering state from `[1, 1]` to `[1, 2]`
instead of leaving it unchanged. -/
theorem section_end_root_not_noop_cex :
    freshLogger.next_section_num = [1, 1] ∧
    freshLogger.section_end.state.next_section_num = [1, 2] ∧
    ([1, 2] : List Int) ≠ [1, 1] := by
  refine ⟨by decide, by decide, by decide⟩

/-- C6 (amended): at the root of the section hierarchy (section-number list of
length at most 2), `section_end` silently skips the pop rather than erroring,
but it still increments the last remaining counter, so the section-numbering
state changes (the next sibling number advances); the list's length is
preserved. -/
theorem section_end_root_increments (st : LoggerState)
    (h : st.next_section_num.length ≤ 2) :
    st.section_end.state.next_section_num = incLast st.next_section_num ∧
    st.section_end.state.next_section_num.length = st.next_section_num.length := by
  have hn : st.section_end.state.next_section_num = incLast st.next_section_num := by
    rw [sectionEnd_state_next, if_neg (by omega)]
  exact ⟨hn, by rw [hn, incLast_length]⟩

/-- Witness for C6's amended theorem on the freshly constructed logger. -/
theorem section_end_root_increments_witness :
    freshLogger.next_section_num.length ≤ 2 ∧
    freshLogger.section_end.state.next_section_num = incLast freshLogger.next_section_num :=
  ⟨by decide, (section_end_root_increments freshLogger (by decide)).1⟩

/-- C2 counterexample: on a freshly constructed logger the first section opened
via `section(title)` is numbered `1.1`, not `1` — the constructor's root
heading already occupies path `1` — so the claimed path sequence
`1, 1.1, 1.1.1` is wrong on the code. -/
theorem section_first_path_cex :
    (freshLogger.«section» "A" false "f").state.curr_section = "1.1  A" ∧
    "1.1  A" ≠ "1" ++ "  A" := by
  refine ⟨by decide, by decide⟩

/-- C2 (amended): starting from a freshly constructed logger, opening three
nested sections yields the paths `1.1`, `1.1.1` and `1.1.1.1` (the
constructor's root heading takes path `1`); after closing all three and
opening one more section, that sibling's path is `1.2`. In general, entering
a section appends a new counter starting at 1 to the section-number list,
and closing a section pops the last counter when more than two remain and
then increments the last remaining counter by one. -/
theorem section_path_numbering :
    (freshLogger.«section» "A" false "f").state.curr_section = "1.1  A" ∧
    ((freshLogger.«section» "A" false "f").state.«section» "B" false "f").state.curr_section =
      "1.1.1  B" ∧
    (((freshLogger.«section» "A" false "f").state.«section» "B" false "f").state.«section»
      "C" false "f").state.curr_section = "1.1.1.1  C" ∧
    ((((freshLogger.«section» "A" false "f").state.«section» "B" false "f").state.«section»
      "C" false "f").state.section_end.state.section_end.state.section_end.state.«section»
      "D" false "f").state.curr_section = "1.2  D" ∧
    (∀ (st : LoggerState) (t : String) (g : Bool) (cn : String),
      (st.«section» t g cn).state.next_section_num = st.next_section_num ++ [1]) ∧
    (∀ st : LoggerState,
      st.section_end.state.next_section_num =
        incLast (if st.next_section_num.length > 2 then st.next_section_num.dropLast
          else st.next_section_num)) := by
  refine ⟨by decide, by decide, by decide, by decide, ?_, ?_⟩
  · intro st t g cn
    exact section_state_next st t g cn
  · intro st
    exact sectionEnd_state_next st

theorem critical_exited_eq (st : LoggerState) (m t c : String) (se : Option Bool)
    (ec : Option Int) (cn : String) (tb : Option String) :
    (st.critical m t c se ec cn tb).exited =
      (if (match se with
            | none => st.default_exit_code.isSome
            | some b => b) = true then
        some (resolvedExitCode ec st.default_exit_code)
      else none) := by
  cases tb <;> cases se <;> cases ec <;>
    simp only [LoggerState.critical, submit_fst, submit_html_default_exit_code] <;>
    split_ifs <;> simp_all [resolvedExitCode]

theorem critical_directive_isSome (st : LoggerState) (m t c : String) (se : Option Bool)
    (ec : Option Int) (cn : String) (tb : Option String) :
    (st.critical m t c se ec cn tb).directive.isSome = st.github_console := by
  cases tb <;>
    simp only [LoggerState.critical, submit_fst, submit_html_github] <;>
    split_ifs <;> simp_all

/-- C10: for every logger whose configured default critical exit code is a
positive integer, calling `critical` with `sys_exit=True` and an explicit
`exit_code` of 0 terminates the process with the configured default exit
code, not with 0: `exit_code or self._default_exit_code` treats an explicit
zero override as if no override were given. -/
theorem critical_zero_exit_code_uses_default (st : LoggerState) (m t c cn : String)
    (d : Int) (hd : st.default_exit_code = some d) (hpos : 0 < d) :
    (st.critical m t c (some true) (some 0) cn none).exited = some (some d) := by
  rw [critical_exited_eq]
  simp [resolvedExitCode, hd]

/-- Witness for C10 on the freshly constructed logger (default exit code 1). -/
theorem critical_zero_exit_code_uses_default_witness :
    freshLogger.default_exit_code = some 1 ∧ (0 : Int) < 1 ∧
    (freshLogger.critical "boom" "" "" (some true) (some 0) "f" none).exited = some (some 1) :=
  ⟨by decide, by decide,
    critical_zero_exit_code_uses_default freshLogger "boom" "" "" "f" 1 (by decide) (by decide)⟩

/-- C1 counterexample: on a freshly constructed logger (default exit code 1, exit
enabled by default), calling `critical` with an explicit `exit_code` of 0
terminates with exit code 1, not with the explicit override 0 — so "the
explicit exit_code override if given" is wrong for a zero override. -/
theorem critical_explicit_zero_override_cex :
    (freshLogger.critical "boom" "" "" none (some 0) "f" none).exited = some (some 1) ∧
    (freshLogger.critical "boom" "" "" none (some 0) "f" none).exited ≠ some (some 0) := by
  refine ⟨by decide, by decide⟩

/-- C1 (amended): with exit disabled (`sys_exit=False` passed, or no override and
no configured default), `critical` returns control to the caller, both the
console transcript and the HTML document contain the formatted critical
entry, and the CI error annotation is emitted exactly when annotation
emission is on; with exit enabled (`sys_exit=True` passed, or no override and
a configured default), `critical` terminates the process with the resolved
exit code: the explicit override when given and nonzero, else the configured
default. -/
theorem critical_exit_semantics (st : LoggerState) (m t c cn : String)
    (se : Option Bool) (ec : Option Int) :
    ((se = some false ∨ (se = none ∧ st.default_exit_code = none)) →
      (st.critical m t c se ec cn none).exited = none ∧
      (formatEntry .critical m t c).1.data <:+:
        (st.critical m t c se ec cn none).state.log_console.data ∧
      (formatEntry .critical m t c).2.1.data <:+:
        (st.critical m t c se ec cn none).state.log_html.data ∧
      (st.critical m t c se ec cn none).directive.isSome = st.github_console) ∧
    ((se = some true ∨ (se = none ∧ st.default_exit_code ≠ none)) →
      (st.critical m t c se ec cn none).exited =
        some (resolvedExitCode ec st.default_exit_code)) := by
  constructor
  · intro h
    rcases h with h | ⟨h1, h2⟩
    · subst h
      refine ⟨?_, ?_, ?_, critical_directive_isSome st m t c (some false) ec cn none⟩
      · rw [critical_exited_eq]
        rfl
      · simp only [LoggerState.critical, submit_fst, Bool.false_and, Bool.false_eq_true,
          if_false, submit_html_log_console]
        exact ⟨st.log_console.data, "\n".data, by simp [String.data_append]⟩
      · simp only [LoggerState.critical, submit_fst, Bool.false_and, Bool.false_eq_true,
          if_false, submit_html_log_html]
        exact ⟨st.log_html.data, "\n".data, by simp [String.data_append]⟩
    · subst h1
      refine ⟨?_, ?_, ?_, critical_directive_isSome st m t c none ec cn none⟩
      · rw [critical_exited_eq]
        simp [h2]
      · simp only [LoggerState.critical, submit_fst, submit_html_default_exit_code, h2,
          Option.isSome_none, Bool.false_and, Bool.false_eq_true, if_false,
          submit_html_log_console]
        exact ⟨st.log_console.data, "\n".data, by simp [String.data_append]⟩
      · simp only [LoggerState.critical, submit_fst, submit_html_default_exit_code, h2,
          Option.isSome_none, Bool.false_and, Bool.false_eq_true, if_false,
          submit_html_log_html]
        exact ⟨st.log_html.data, "\n".data, by simp [String.data_append]⟩
  · intro h
    rcases h with h | ⟨h1, h2⟩
    · subst h
      rw [critical_exited_eq]
      rfl
    · subst h1
      rw [critical_exited_eq]
      obtain ⟨d, hd⟩ := Option.ne_none_iff_exists'.mp h2
      simp [hd]

/-- Witness for C1's amended theorem: exit disabled via `sys_exit=False` on the
freshly constructed logger. -/
theorem critical_exit_semantics_witness :
    (freshLogger.critical "boom" "" "" (some false) none "f" none).exited = none :=
  ((critical_exit_semantics freshLogger "boom" "" "" "f" (some false) none).1
    (Or.inl rfl)).1

/-- C9: with annotation emission on and a foldable group currently open, opening
a non-foldable section (`group=False`) still increments the group-depth
counter and emits no start marker; and `section_end` emits the `::endgroup::`
end marker exactly when the counter is 1, so the marker appears only after a
`section_end` for every section opened inside the group. -/
theorem nonfoldable_section_in_group_counts (st : LoggerState) (t cn : String)
    (hg : st.github_console = true) (hpos : 0 < st.open_grouped_sections) :
    (st.«section» t false cn).state.open_grouped_sections = st.open_grouped_sections + 1 ∧
    (st.«section» t false cn).startMarker = false ∧
    (∀ st' : LoggerState, st'.section_end.endMarker = true ↔
      st'.open_grouped_sections = 1) := by
  refine ⟨?_, ?_, ?_⟩
  · rw [section_state_open, if_pos ⟨hg, Or.inr (by omega)⟩]
  · rw [section_startMarker]
    simp only [decide_eq_false_iff_not]
    rintro ⟨-, -, h0⟩
    omega
  · intro st'
    rw [sectionEnd_endMarker]
    simp

/-- Witness for C9: a group opened on the fresh logger, then a non-foldable
section inside it. -/
theorem nonfoldable_section_in_group_counts_witness :
    (freshLogger.«section» "G" true "f").state.github_console = true ∧
    (0 : Int) < (freshLogger.«section» "G" true "f").state.open_grouped_sections ∧
    ((freshLogger.«section» "G" true "f").state.«section» "S" false
      "f").state.open_grouped_sections =
      (freshLogger.«section» "G" true "f").state.open_grouped_sections + 1 :=
  ⟨by decide, by decide,
    (nonfoldable_section_in_group_counts (freshLogger.«section» "G" true "f").state "S" "f"
      (by decide) (by decide)).1⟩

theorem reachable_open_nonneg (st : LoggerState) (h : Reachable st) :
    0 ≤ st.open_grouped_sections := by
  induction h with
  | init ro gc isn ecc cpd hpc rh ht hs cn st hok =>
      rw [init_ok_eq ro gc isn ecc cpd hpc rh ht hs cn
        (init_ok_valid ro gc isn ecc cpd hpc rh ht hs cn st hok)] at hok
      injection hok with h2
      rw [← h2, section_state_open]
      split_ifs <;> simp [initBaseState]
  | sec st title group cn _ ih =>
      rw [section_state_open]
      split_ifs <;> omega
  | secEnd st _ ih =>
      rw [sectionEnd_state_open]
      split_ifs <;> omega
  | dbg st m t c _ ih => simpa using ih
  | inf st m t c _ ih => simpa using ih
  | ntc st m t c _ ih => simpa using ih
  | wrn st m t c _ ih => simpa using ih
  | err st m t c _ ih => simpa using ih
  | crit st m t c se ec cn tb _ ih => simpa using ih

theorem doSections_in_group (title caller : Nat → String) (n : Nat) :
    ∀ st : LoggerState, st.github_console = true → 0 < st.open_grouped_sections →
      (doSections title caller st n).2 = List.replicate n false ∧
      (doSections title caller st n).1.open_grouped_sections =
        st.open_grouped_sections + n ∧
      (doSections title caller st n).1.github_console = true := by
  induction n with
  | zero =>
      intro st hg hk
      simp [doSections, hg]
  | succ n ih =>
      intro st hg hk
      have hflag : (st.«section» (title n) true (caller n)).startMarker = false := by
        rw [section_startMarker]
        simp only [decide_eq_false_iff_not]
        rintro ⟨-, -, h0⟩
        omega
      have hopen : (st.«section» (title n) true (caller n)).state.open_grouped_sections =
          st.open_grouped_sections + 1 := by
        rw [section_state_open, if_pos ⟨hg, Or.inl rfl⟩]
      have hgith : (st.«section» (title n) true (caller n)).state.github_console = true := by
        simp [hg]
      obtain ⟨hf, ho, hgg⟩ :=
        ih (st.«section» (title n) true (caller n)).state hgith (by rw [hopen]; omega)
      refine ⟨?_, ?_, hgg⟩
      · simp [doSections, hf, hflag, List.replicate_succ]
      · simp only [doSections]
        rw [ho, hopen]
        push_cast
        omega

theorem doSectionEnds_flags (m : Nat) :
    ∀ st : LoggerState, st.open_grouped_sections = (m : Int) + 1 →
      (doSectionEnds st (m + 1)).2 = List.replicate m false ++ [true] ∧
      (doSectionEnds st (m + 1)).1.open_grouped_sections = 0 := by
  induction m with
  | zero =>
      intro st h1
      have he : st.section_end.endMarker = true := by
        rw [sectionEnd_endMarker]
        simp [h1]
      have ho : st.section_end.state.open_grouped_sections = 0 := by
        rw [sectionEnd_state_open, if_pos (by omega)]
        omega
      simp [doSectionEnds, he, ho]
  | succ m ih =>
      intro st h1
      have he : st.section_end.endMarker = false := by
        rw [sectionEnd_endMarker]
        simp only [decide_eq_false_iff_not]
        omega
      have ho : st.section_end.state.open_grouped_sections = (m : Int) + 1 := by
        rw [sectionEnd_state_open, if_pos (by omega)]
        omega
      obtain ⟨hf, hoo⟩ := ih st.section_end.state ho
      refine ⟨?_, ?_⟩
      · show st.section_end.endMarker :: (doSectionEnds st.section_end.state (m + 1)).2 = _
        rw [he, hf]
        simp [List.replicate_succ]
      · show (doSectionEnds st.section_end.state (m + 1)).1.open_grouped_sections = 0
        exact hoo

/-- C4: the group-depth counter is never negative in any reachable state; and
with annotation emission on, a sequence of `n ≥ 1` nested foldable-section
openings followed by `n` matching `section_end` calls emits exactly one
`::group::` start marker — on the first opening — and exactly one
`::endgroup::` end marker — on the last close — while the intermediate
openings and closings emit neither. -/
theorem group_marker_emission :
    (∀ st : LoggerState, Reachable st → 0 ≤ st.open_grouped_sections) ∧
    (∀ (title caller : Nat → String) (st : LoggerState) (n : Nat),
      st.github_console = true → st.open_grouped_sections = 0 → 1 ≤ n →
      (doSections title caller st n).2 = true :: List.replicate (n - 1) false ∧
      (doSectionEnds (doSections title caller st n).1 n).2 =
        List.replicate (n - 1) false ++ [true] ∧
      (doSectionEnds (doSections title caller st n).1 n).1.open_grouped_sections = 0) := by
  constructor
  · exact reachable_open_nonneg
  · intro title caller st n hg h0 hn
    obtain ⟨m, rfl⟩ : ∃ m, n = m + 1 := ⟨n - 1, by omega⟩
    have hm1 : (st.«section» (title m) true (caller m)).startMarker = true := by
      rw [section_startMarker]
      simp [hg, h0]
    have hopen1 : (st.«section» (title m) true (caller m)).state.open_grouped_sections = 1 := by
      rw [section_state_open, if_pos ⟨hg, Or.inl rfl⟩, h0]
      omega
    have hg1 : (st.«section» (title m) true (caller m)).state.github_console = true := by
      simp [hg]
    obtain ⟨hf, ho, -⟩ :=
      doSections_in_group title caller m (st.«section» (title m) true (caller m)).state hg1
        (by rw [hopen1]; omega)
    have hfinal : (doSections title caller st (m + 1)).1.open_grouped_sections =
        (m : Int) + 1 := by
      simp only [doSections]
      rw [ho, hopen1]
      omega
    have hflags : (doSections title caller st (m + 1)).2 =
        true :: List.replicate m false := by
      simp [doSections, hm1, hf]
    obtain ⟨hef, heo⟩ :=
      doSectionEnds_flags m (doSections title caller st (m + 1)).1 hfinal
    refine ⟨by simpa using hflags, by simpa using hef, heo⟩

/-- Witness for C4 on the freshly constructed logger with `n = 2`. -/
theorem group_marker_emission_witness :
    freshLogger.github_console = true ∧ freshLogger.open_grouped_sections = 0 ∧
    (1 : Nat) ≤ 2 ∧
    (doSections (fun _ => "T") (fun _ => "f") freshLogger 2).2 = [true, false] := by
  refine ⟨by decide, by decide, by decide, ?_⟩
  have h := (group_marker_emission.2 (fun _ => "T") (fun _ => "f") freshLogger 2
    (by decide) (by decide) (by decide)).1
  simpa using h

/-- C3: for every reachable logger state, the `html_log` accessor returns the
in-memory document with the closing body/html tags appended exactly once (in
particular they are a suffix of the document); and whenever realtime output
is on and an HTML file is configured, the file's content equals the
accumulated in-memory document followed by the closing tags appended exactly
once — so the file is a complete HTML document after every operation. -/
theorem html_file_always_complete (st : LoggerState) (h : Reachable st) :
    (st.html_log = st.log_html ++ htmlFileEnd ∧ htmlFileEnd.data <:+ st.html_log.data) ∧
    HtmlFileInv st := by
  have inv : HtmlFileInv st := by
    induction h with
    | init ro gc isn ecc cpd hpc rh ht hs cn st hok =>
        exact htmlInv_init ro gc isn ecc cpd hpc rh ht hs cn st hok
    | sec st title group cn _ ih => exact htmlInv_section st title group cn ih
    | secEnd st _ ih => exact htmlInv_section_end st ih
    | dbg st m t c _ ih => exact htmlInv_debug st m t c ih
    | inf st m t c _ ih => exact htmlInv_info st m t c ih
    | ntc st m t c _ ih => exact htmlInv_notice st m t c ih
    | wrn st m t c _ ih => exact htmlInv_warning st m t c ih
    | err st m t c _ ih => exact htmlInv_error st m t c ih
    | crit st m t c se ec cn tb _ ih => exact htmlInv_critical st m t c se ec cn tb ih
  exact ⟨⟨rfl, ⟨st.log_html.data, by simp [LoggerState.html_log, String.data_append]⟩⟩, inv⟩

/-- Witness for C3 on the freshly constructed logger (realtime output on, HTML
file configured). -/
theorem html_file_always_complete_witness :
    Reachable freshLogger ∧ freshLogger.realtime_output = true ∧
    freshLogger.html_log = freshLogger.log_html ++ htmlFileEnd ∧
    HtmlFileInv freshLogger := by
  have hr : Reachable freshLogger :=
    Reachable.init true true 1 (some 1) true true "Log" "Log" "" "script.main" freshLogger rfl
  exact ⟨hr, rfl, (html_file_always_complete freshLogger hr).1.1,
    (html_file_always_complete freshLogger hr).2⟩

end ActionMan
